import Mathlib

/-!
A shallow embedding of the shortlisting decision engine of the
Airtable-Tooling-Exercise repository (`shortlist.py`, with the retry wrapper
of `llm_utils.py` and the configuration of `config.py`), together with
theorems settling the specification claims about it.

External collaborators are passed in as explicit parameters:

* the Enrichment Port (Airtable `fetch_records`) is modelled by handing each
  evaluator the list of records its fetch would return;
* the Classification Port (`LLMClient.generate_content`) is a function from
  the full prompt text to `Option String`, where `none` models exhausted
  retries;
* geocoding (`Nominatim(...).geocode`) is a function into `GeoResult`;
* the currency snapshot (`CONVERSION_RATES`) is a partial map from currency
  code to rate;
* `datetime.strptime(s, "%Y-%m-%d")` is a function `String → Option ℤ`
  giving the parsed date as a day number, and `datetime.now()` is a day
  number `today`.

Python numbers are modelled as rationals; `x / 0 = 0` in `ℚ` where Python
would raise `ZeroDivisionError` (reachable only if the exchange-rate
snapshot mapped a currency to rate `0`).  Python string primitives
(`lower`, `strip`, `split`) are re-implemented structurally so that all
definitions evaluate.
-/

namespace Shortlist

/-- A value stored in a record field: Airtable fields carry either text or a
number (numbers are modelled as rationals). -/
inductive FieldVal where
  | str (s : String)
  | num (q : ℚ)
deriving DecidableEq

/-- The `fields` object of an Airtable record, a Python dict with string
keys (keys are unique; lookup returns the first binding). -/
abbrev Fields := List (String × FieldVal)

/-- Python `fields.get(key)`: the value bound to `key`, if any. -/
def Fields.get? (f : Fields) (k : String) : Option FieldVal :=
  (f.find? (fun p => p.1 == k)).map Prod.snd

/-- Python `fields.get(key)` when the caller expects a string (absent or
non-string values give `none`). -/
def Fields.getStr? (f : Fields) (k : String) : Option String :=
  match f.get? k with
  | some (FieldVal.str s) => some s
  | _ => none

/-- Python `fields.get(key, default)` for string values. -/
def Fields.getStrD (f : Fields) (k : String) (d : String) : String :=
  (f.getStr? k).getD d

/-- Python `fields.get(key, default)` for numeric values. -/
def Fields.getNumD (f : Fields) (k : String) (d : ℚ) : ℚ :=
  match f.get? k with
  | some (FieldVal.num q) => q
  | _ => d

/-- Python `str.lower()` (ASCII, which covers all strings the engine
lowercases). -/
def pyLower (s : String) : String :=
  ⟨s.data.map Char.toLower⟩

/-- Python `str.strip()`: drop leading and trailing whitespace. -/
def pyStrip (s : String) : String :=
  ⟨((s.data.dropWhile Char.isWhitespace).reverse.dropWhile Char.isWhitespace).reverse⟩

/-- Helper for `pySplit`: accumulate the current chunk (reversed) while
scanning the character list. -/
def pySplitAux (sep : Char) : List Char → List Char → List String
  | [], acc => [⟨acc.reverse⟩]
  | c :: cs, acc =>
    if c = sep then (⟨acc.reverse⟩ : String) :: pySplitAux sep cs []
    else pySplitAux sep cs (c :: acc)

/-- Python `str.split(sep)` for a one-character separator; the result is
always non-empty. -/
def pySplit (s : String) (sep : Char) : List String :=
  pySplitAux sep s.data []

/-- Python `list[-1]` on the (always non-empty) result of `split`. -/
def pyLast (l : List String) : String :=
  l.getLastD ""

/-- Python truthiness of an optional string: `None` and `""` are falsy. -/
def pyFalsy (o : Option String) : Bool :=
  match o with
  | none => true
  | some s => s.isEmpty

/-- Rendering of a Python number inside an f-string.  No claim inspects the
digits of a number embedded in a reason string, so exact float formatting is
not modelled: integral values print as integers, other rationals as
`num/den`. -/
def pyNum (q : ℚ) : String :=
  if q.den = 1 then toString q.num else toString q.num ++ "/" ++ toString q.den

/-- Rendering of `fields.get(key)` inside a Python f-string: an absent key
prints as `None`. -/
def Fields.pyGetStr (f : Fields) (k : String) : String :=
  match f.get? k with
  | some (FieldVal.str s) => s
  | some (FieldVal.num q) => pyNum q
  | none => "None"

/-- Python `f"{x:.1f}"` applied to the exact rational value: round to one
decimal place and print with one digit after the point (the float rounding
of CPython is abstracted; no claim inspects these digits). -/
def fmt1 (q : ℚ) : String :=
  let n : ℤ := round (q * 10)
  let core := fun (m : ℕ) => toString (m / 10) ++ "." ++ toString (m % 10)
  if n < 0 then "-" ++ core n.natAbs else core n.natAbs

/-- An Airtable record: its `id` and its `fields` dict. -/
structure Record where
  id : String
  fields : Fields
deriving DecidableEq

/-- Python `records[0].get("fields", {}) if records else {}`, the common
head-record access of `check_compensation` and `check_location`. -/
def headFields : List Record → Fields
  | [] => []
  | r :: _ => r.fields

/-- `CONFIG["ALLOWED_LOCATIONS"]` (`config.py`). -/
def ALLOWED_LOCATIONS : List String :=
  ["India", "United States", "Canada", "UK", "Germany"]

/-- `CONFIG["MIN_AVAILABILITY_HRS"]` (`config.py`). -/
def MIN_AVAILABILITY_HRS : ℚ := 20

/-- `CONFIG["MAX_RATE_USD"]` (`config.py`). -/
def MAX_RATE_USD : ℚ := 100

/-- `CONFIG["MIN_YEARS_EXPERIENCE"]` (`config.py`). -/
def MIN_YEARS_EXPERIENCE : ℚ := 4

/-- `CONFIG["APPLICANTS_TABLE"]` (`config.py`). -/
def APPLICANTS_TABLE : String := "Applicants"

/-- `CONFIG["SHORTLISTED_LEADS_TABLE"]` (`config.py`). -/
def SHORTLISTED_LEADS_TABLE : String := "Shortlisted Leads"

/-- The retry loop of `LLMClient.generate_content` (`llm_utils.py`):
`attemptResult i` is the outcome of attempt number `i` (`none` models the
API call raising an exception).  The loop returns the first successful
response text; once the remaining attempt budget is `0` the caller receives
`none`.  The `time.sleep` backoff between attempts has no effect on the
returned value and is not modelled. -/
def generateAttempts (attemptResult : ℕ → Option String) : ℕ → ℕ → Option String
  | _, 0 => none
  | attempt, rem + 1 =>
    match attemptResult attempt with
    | some text => some text
    | none => generateAttempts attemptResult (attempt + 1) rem

/-- `LLMClient.generate_content(prompt, max_retries, ...)`: run up to
`max_retries` attempts starting from attempt `0`; `none` is the "no result"
outcome after exhausted retries.  The default attempt count in the source is
`3`. -/
def generate_content (attemptResult : ℕ → Option String) (max_retries : ℕ) :
    Option String :=
  generateAttempts attemptResult 0 max_retries

/-- The tier-1 prompt template of `check_experience` (`shortlist.py`),
already instantiated (`prompt.format`) with the lowercased company name. -/
def experiencePrompt (company_name : String) : String :=
  "You are an expert in technology companies. Your task is to " ++
  "determine if the given company is widely considered a top-tier " ++
  "or \x27FAANG-level\x27 technology company in terms of prestige, " ++
  "engineering talent, and compensation. " ++
  "Answer only \x27Yes\x27 or \x27No\x27. Do not make mistakes. " ++
  "Example: If the company is \x27Google\x27, answer \x27Yes\x27. " ++
  "If the company is \x27Infosys\x27, answer \x27No\x27. " ++
  "Company: \x27" ++ company_name ++ "\x27"

/-- Whether the classifier answers exactly `"Yes"` for this work-history
entry (the `prompt_result == "Yes"` test of `check_experience`). -/
def classifiedYes (classify : String → Option String) (rec : Record) : Bool :=
  classify (experiencePrompt (pyLower (rec.fields.getStrD "Company" ""))) == some "Yes"

/-- The start/end day numbers of one work-history entry, exactly as the loop
body of `check_experience` resolves them: `None` or empty start/end strings
skip the entry (`continue`), an unparseable date raises and is caught
(`continue`), and an `"End"` equal to `"present"` (case-insensitively)
resolves to `today`.  `none` means the entry contributes nothing. -/
def entryDates? (parseDate : String → Option ℤ) (today : ℤ) (exp : Fields) :
    Option (ℤ × ℤ) :=
  let start_date_str := exp.getStr? "Start"
  let end_date_str := exp.getStr? "End"
  if pyFalsy start_date_str || pyFalsy end_date_str then none
  else
    match parseDate (start_date_str.getD "") with
    | none => none
    | some start_date =>
      match
        (if pyLower (end_date_str.getD "") = "present" then some today
         else parseDate (end_date_str.getD "")) with
      | none => none
      | some end_date => some (start_date, end_date)

/-- The elapsed-days contribution of a single work-history entry:
`(end_date - start_date).days`, and `0` for a skipped entry. -/
def entryDays (parseDate : String → Option ℤ) (today : ℤ) (rec : Record) : ℤ :=
  match entryDates? parseDate today rec.fields with
  | none => 0
  | some (start_date, end_date) => end_date - start_date

/-- The mutable loop state of `check_experience`: `total_days`,
`worked_at_tier_1` and `temp_tier_1`. -/
structure ExpState where
  total_days : ℤ
  worked_at_tier_1 : Bool
  temp_tier_1 : Bool
deriving DecidableEq

/-- One iteration of the `for experience_data in experiences` loop of
`check_experience`: classify the company first (setting the sticky
`temp_tier_1`), then resolve the dates; on resolvable dates reassign
`worked_at_tier_1` to `temp_tier_1 and (end_date - start_date).days > 0` and
add the elapsed days to `total_days`. -/
def expStep (classify : String → Option String) (parseDate : String → Option ℤ)
    (today : ℤ) (st : ExpState) (experience_data : Record) : ExpState :=
  let exp := experience_data.fields
  let prompt_result := classify (experiencePrompt (pyLower (exp.getStrD "Company" "")))
  let temp_tier_1 := st.temp_tier_1 || (prompt_result == some "Yes")
  match entryDates? parseDate today exp with
  | none => { st with temp_tier_1 := temp_tier_1 }
  | some (start_date, end_date) =>
    { total_days := st.total_days + (end_date - start_date),
      worked_at_tier_1 := temp_tier_1 && decide (0 < end_date - start_date),
      temp_tier_1 := temp_tier_1 }

/-- The loop state of `check_experience` after processing all fetched
work-history records (initially `total_days = 0`, both flags `False`). -/
def experienceState (classify : String → Option String)
    (parseDate : String → Option ℤ) (today : ℤ) (records : List Record) :
    ExpState :=
  records.foldl (expStep classify parseDate today) ⟨0, false, false⟩

/-- Total experience in years as the specification states it: the sum of
per-entry elapsed days across ALL entries, divided by `365.25`. -/
def totalYearsOf (parseDate : String → Option ℤ) (today : ℤ)
    (experiences : List Record) : ℚ :=
  ((experiences.map (entryDays parseDate today)).sum : ℤ) / (365.25 : ℚ)

/-- `check_experience(applicant_id)` (`shortlist.py` lines 43-107), given
the fetched work-history records: run the loop, convert `total_days` to
years, and pass iff
`(total_years >= MIN_YEARS_EXPERIENCE or worked_at_tier_1) and total_years > 0`. -/
def check_experience (classify : String → Option String)
    (parseDate : String → Option ℤ) (today : ℤ) (experiences : List Record) :
    Bool × String :=
  let st := experienceState classify parseDate today experiences
  let total_years : ℚ := (st.total_days : ℤ) / (365.25 : ℚ)
  if (MIN_YEARS_EXPERIENCE ≤ total_years ∨ st.worked_at_tier_1 = true) ∧
      0 < total_years then
    (true, "Experience: " ++ fmt1 total_years ++ " years, Tier-1: " ++
      (if st.worked_at_tier_1 then "Yes" else "No"))
  else
    (false, "Experience: " ++ fmt1 total_years ++ " years (below min), Tier-1: No")

/-- Structural characterisation of the final `worked_at_tier_1` value,
scanning the REVERSED entry list: find the most recent entry with
resolvable dates; the flag is true iff that entry has positive duration and
some entry up to and including it classified `"Yes"`. -/
def workedSpecRev (classify : String → Option String)
    (parseDate : String → Option ℤ) (today : ℤ) : List Record → Bool
  | [] => false
  | r :: earlier =>
    match entryDates? parseDate today r.fields with
    | some (start_date, end_date) =>
      (earlier.any (classifiedYes classify) || classifiedYes classify r) &&
        decide (0 < end_date - start_date)
    | none => workedSpecRev classify parseDate today earlier

/-- The final `worked_at_tier_1` value of `check_experience`, characterised
structurally (see `workedSpecRev`). -/
def workedSpec (classify : String → Option String)
    (parseDate : String → Option ℤ) (today : ℤ) (records : List Record) :
    Bool :=
  workedSpecRev classify parseDate today records.reverse

/-- `salary_records[0].get("fields", {}).get("Preferred Rate", 0)`. -/
def salaryRate (salary_records : List Record) : ℚ :=
  (headFields salary_records).getNumD "Preferred Rate" 0

/-- `salary.get("Currency", "USD").upper()`.  The engine only ever
upper-cases currency codes, which are ASCII. -/
def salaryCurrency (salary_records : List Record) : String :=
  ⟨((headFields salary_records).getStrD "Currency" "USD").data.map Char.toUpper⟩

/-- `salary.get("Availability (hrs/wk)", 0)`. -/
def salaryAvailability (salary_records : List Record) : ℚ :=
  (headFields salary_records).getNumD "Availability (hrs/wk)" 0

/-- `check_compensation(applicant_id)` (`shortlist.py` lines 110-146), given
the snapshot `conversion_rates` (`CONVERSION_RATES.get(c, 1)` is modelled by
`(conversion_rates c).getD 1`) and the fetched salary-preference records.
An empty fields dict fails with reason `"No salary information available."`;
otherwise pass iff the USD-converted rate is at most `MAX_RATE_USD` and the
availability is at least `MIN_AVAILABILITY_HRS`.  (The source's
`rate is not None` / `availability is not None` guards are vacuous here:
absent fields are modelled by their defaults `0`.) -/
def check_compensation (conversion_rates : String → Option ℚ)
    (salary_records : List Record) : Bool × String :=
  let salary := headFields salary_records
  if salary.isEmpty then
    (false, "No salary information available.")
  else
    let rate := salaryRate salary_records
    let currency := salaryCurrency salary_records
    let availability := salaryAvailability salary_records
    let rate_ok := decide (rate / ((conversion_rates currency).getD 1) ≤ MAX_RATE_USD)
    let availability_ok := decide (MIN_AVAILABILITY_HRS ≤ availability)
    if rate_ok && availability_ok then
      (true, "Compensation: $" ++ pyNum rate ++ "/hr, " ++ pyNum availability ++
        " hrs/wk")
    else
      (false, pyStrip
        ((if rate_ok = false then
            "Compensation: Rate $" ++ pyNum rate ++ " (>" ++ pyNum MAX_RATE_USD ++ ") "
          else "") ++
         (if availability_ok = false then
            "Availability " ++ pyNum availability ++ "hrs (<" ++
              pyNum MIN_AVAILABILITY_HRS ++ ")"
          else "")))

/-- Outcome of `Nominatim(user_agent="geoapi").geocode(location)` as
`check_location` observes it: a resolved address string, no result (Python
`None`, so that `.address` raises `AttributeError`), or any other raised
exception (network errors etc., caught by the generic `except`). -/
inductive GeoResult where
  | found (address : String)
  | notFound
  | failure (msg : String)
deriving DecidableEq

/-- Python list repr of the allow-list, as interpolated into the fallback
prompt by `f"Allowed locations: {ALLOWED_LOCATIONS}. "`. -/
def pyListRepr (l : List String) : String :=
  "[" ++ String.intercalate ", " (l.map (fun s => "\x27" ++ s ++ "\x27")) ++ "]"

/-- The fuzzy-matching prompt of `check_location` (`shortlist.py`),
instantiated with the lowercased location.  (The trailing
`prompt.format(...)` call in the source is the identity: the f-string has
already interpolated both values and contains no placeholders.) -/
def locationPrompt (location : String) : String :=
  "You are a location expert. Your task is to determine if a " ++
  "given place name refers to any location in the allowed " ++
  "locations list, even if there are spelling mistakes or minor " ++
  "variations. Use your knowledge to infer the intended location. " ++
  "If the location matches (directly or by correcting a spelling " ++
  "mistake), answer \x27Yes\x27. Otherwise, answer \x27No\x27. " ++
  "Allowed locations: " ++ pyListRepr ALLOWED_LOCATIONS ++ ". " ++
  "Place name: \x27" ++ location ++ "\x27. " ++
  "Respond only with \x27Yes\x27 or \x27No\x27."

/-- `personal.get("Location", "").lower()`: the location string
`check_location` works with. -/
def locationOf (personal_records : List Record) : String :=
  pyLower ((headFields personal_records).getStrD "Location" "")

/-- Result of `check_location`, with the number of Classification Port
invocations made along the taken path recorded in `llm_calls` (the source
has one call site, in the geocoding-failed fallback). -/
structure LocationResult where
  passed : Bool
  reason : String
  llm_calls : ℕ
deriving DecidableEq

/-- `check_location(applicant_id)` (`shortlist.py` lines 149-204), given the
geocoder and classifier and the fetched personal-details records.  A
resolved address is split on `","`, the last component stripped and matched
against the allow-list; only an unresolved address (`AttributeError`) falls
back to the classifier, accepting exactly `"Yes"`.  NOTE: the accepted
geocoding branch reads the misspelled key `'location'`
(`personal.get('location')`), so its reason renders `None` rather than the
record's `Location` text. -/
def check_location (geocode : String → GeoResult)
    (classify : String → Option String) (personal_records : List Record) :
    LocationResult :=
  let personal := headFields personal_records
  let location := locationOf personal_records
  match geocode location with
  | GeoResult.found address =>
    let country := pyStrip (pyLast (pySplit address ','))
    if country ∈ ALLOWED_LOCATIONS then
      { passed := true,
        reason := "Location: " ++ personal.pyGetStr "location" ++ " (Allowed)",
        llm_calls := 0 }
    else
      { passed := false,
        reason := "Location: " ++ personal.pyGetStr "Location" ++ " (Not in allowed list)",
        llm_calls := 0 }
  | GeoResult.notFound =>
    let prompt_result := classify (locationPrompt location)
    if prompt_result == some "Yes" then
      { passed := true,
        reason := "Location: " ++ personal.pyGetStr "Location" ++ " (Allowed)",
        llm_calls := 1 }
    else
      { passed := false,
        reason := "Location: " ++ personal.pyGetStr "Location" ++ " (Not in allowed list)",
        llm_calls := 1 }
  | GeoResult.failure _ =>
    { passed := false,
      reason := "Location: " ++ personal.pyGetStr "Location" ++ " (Not in allowed list)",
      llm_calls := 0 }

/-- A mutation issued against the record store (`AirtableClient`). -/
inductive AirtableOp where
  | update (table : String) (record_id : String) (field : String) (value : String)
  | create (table : String) (fields : Fields)
deriving DecidableEq

/-- The table a mutation addresses. -/
def AirtableOp.table : AirtableOp → String
  | AirtableOp.update t _ _ _ => t
  | AirtableOp.create t _ => t

/-- Whether a mutation creates a record. -/
def AirtableOp.isCreate : AirtableOp → Bool
  | AirtableOp.create _ _ => true
  | _ => false

/-- `create_shortlisted_lead(applicant_id, reason)` (`shortlist.py` lines
25-40), given the lead records its `fetch_records` filter would return: if a
matching record exists, update its `Score Reason`; otherwise do nothing (the
function never creates a record). -/
def create_shortlisted_lead (lead_records : List Record) (reason : String) :
    List AirtableOp :=
  match lead_records with
  | [] => []
  | r :: _ => [AirtableOp.update SHORTLISTED_LEADS_TABLE r.id "Score Reason" reason]

/-- Everything the per-applicant loop body of `main` (`shortlist.py` lines
224-244) consumes: the applicant's Airtable row, the fetched record slices
for the three evaluators, the lead records matching the applicant, and the
external services. -/
structure ApplicantEnv where
  record : Record
  experiences : List Record
  salary_records : List Record
  personal_records : List Record
  lead_records : List Record
  classify : String → Option String
  geocode : String → GeoResult
  conversion_rates : String → Option ℚ
  parseDate : String → Option ℤ
  today : ℤ

/-- The loop body of `main` for one applicant: run the three evaluators,
AND the verdicts, build the final reason, update `Shortlist Status`, and on
`"Shortlisted"` (after the settling sleep, which has no modelled effect)
run `create_shortlisted_lead`.  Returns (status, final reason, mutations in
order). -/
def processApplicant (env : ApplicantEnv) : String × String × List AirtableOp :=
  let e := check_experience env.classify env.parseDate env.today env.experiences
  let c := check_compensation env.conversion_rates env.salary_records
  let l := check_location env.geocode env.classify env.personal_records
  let all_criteria_met := e.1 && c.1 && l.passed
  let status := if all_criteria_met then "Shortlisted" else "Not Shortlisted"
  let final_reason := "Candidate " ++ status ++ " for the following reasons:\n- " ++
    e.2 ++ "\n- " ++ c.2 ++ "\n- " ++ l.reason
  (status, final_reason,
    AirtableOp.update APPLICANTS_TABLE env.record.id "Shortlist Status" status ::
      (if status = "Shortlisted" then create_shortlisted_lead env.lead_records final_reason
       else []))

/-- A concrete `strptime` model for concrete evaluations: it parses the two
dates appearing in `sampleWork` to day numbers `0` and `1827` (the number of
days from 2015-01-01 to 2020-01-01) and fails on everything else. -/
def sampleParseDate : String → Option ℤ := fun s =>
  if s = "2015-01-01" then some 0
  else if s = "2020-01-01" then some 1827
  else none

/-- A concrete work-history record: five years at a non-tier-1 company. -/
def sampleWork : Record :=
  ⟨"w1", [("Company", FieldVal.str "Acme"), ("Start", FieldVal.str "2015-01-01"),
    ("End", FieldVal.str "2020-01-01")]⟩

/-- A concrete applicant environment with no fetched records and failing
external services, used for concrete evaluations of the aggregator. -/
def sampleEnv : ApplicantEnv :=
  { record := ⟨"recA", [("Applicant ID", FieldVal.str "A1")]⟩,
    experiences := [], salary_records := [], personal_records := [],
    lead_records := [], classify := fun _ => none,
    geocode := fun _ => GeoResult.notFound,
    conversion_rates := fun _ => none, parseDate := fun _ => none,
    today := 0 }

end Shortlist

namespace Shortlist

set_option maxRecDepth 16000

/-! ### Helper lemmas about the `check_experience` loop -/

/-- One loop step adds exactly the entry's elapsed-days contribution to
`total_days`. -/
theorem expStep_total_days (classify : String → Option String)
    (parseDate : String → Option ℤ) (today : ℤ) (st : ExpState) (r : Record) :
    (expStep classify parseDate today st r).total_days
      = st.total_days + entryDays parseDate today r := by
  simp only [expStep, entryDays]
  cases h : entryDates? parseDate today r.fields with
  | none => simp [h]
  | some p => obtain ⟨s, e⟩ := p; simp [h]

/-- Running the loop from any state adds the sum of per-entry elapsed days. -/
theorem foldl_expStep_total_days (classify : String → Option String)
    (parseDate : String → Option ℤ) (today : ℤ) (l : List Record) :
    ∀ st : ExpState,
      (l.foldl (expStep classify parseDate today) st).total_days
        = st.total_days + (l.map (entryDays parseDate today)).sum := by
  induction l with
  | nil => intro st; simp
  | cons r tl ih =>
    intro st
    simp only [List.foldl_cons, List.map_cons, List.sum_cons]
    rw [ih, expStep_total_days]
    ring

/-- `total_days` after the loop is the sum of per-entry elapsed days over
ALL entries — independent of the classifier. -/
theorem experienceState_total_days (classify : String → Option String)
    (parseDate : String → Option ℤ) (today : ℤ) (l : List Record) :
    (experienceState classify parseDate today l).total_days
      = (l.map (entryDays parseDate today)).sum := by
  rw [experienceState, foldl_expStep_total_days]
  simp

/-- One loop step ORs the entry's classification into the sticky
`temp_tier_1`. -/
theorem expStep_temp (classify : String → Option String)
    (parseDate : String → Option ℤ) (today : ℤ) (st : ExpState) (r : Record) :
    (expStep classify parseDate today st r).temp_tier_1
      = (st.temp_tier_1 || classifiedYes classify r) := by
  simp only [expStep, classifiedYes]
  cases h : entryDates? parseDate today r.fields with
  | none => simp [h]
  | some p => obtain ⟨s, e⟩ := p; simp [h]

/-- `temp_tier_1` after the loop: true iff any processed entry classified
`"Yes"` (it is accumulated with OR and never reset). -/
theorem foldl_expStep_temp (classify : String → Option String)
    (parseDate : String → Option ℤ) (today : ℤ) (l : List Record) :
    ∀ st : ExpState,
      (l.foldl (expStep classify parseDate today) st).temp_tier_1
        = (st.temp_tier_1 || l.any (classifiedYes classify)) := by
  induction l with
  | nil => intro st; simp
  | cons r tl ih =>
    intro st
    simp only [List.foldl_cons, List.any_cons]
    rw [ih, expStep_temp, Bool.or_assoc]

/-- The final `worked_at_tier_1` value equals its structural
characterisation `workedSpec`. -/
theorem experienceState_worked (classify : String → Option String)
    (parseDate : String → Option ℤ) (today : ℤ) (l : List Record) :
    (experienceState classify parseDate today l).worked_at_tier_1
      = workedSpec classify parseDate today l := by
  induction l using List.reverseRecOn with
  | nil => rfl
  | append_singleton tl r ih =>
    rw [workedSpec, List.reverse_append, List.reverse_singleton,
      List.singleton_append, experienceState, List.foldl_append,
      List.foldl_cons, List.foldl_nil]
    simp only [workedSpecRev, expStep]
    cases h : entryDates? parseDate today r.fields with
    | none =>
      simp only [h]
      rw [← experienceState, ih, workedSpec]
    | some p =>
      obtain ⟨s, e⟩ := p
      simp only [h]
      rw [← experienceState, ← classifiedYes]
      have htemp : (experienceState classify parseDate today tl).temp_tier_1
          = tl.any (classifiedYes classify) := by
        rw [experienceState, foldl_expStep_temp]
        simp
      rw [htemp, List.any_reverse]

/-- The pass verdict of `check_experience`, characterised through the
specification-side `totalYearsOf` (sum over ALL entries divided by 365.25). -/
theorem check_experience_fst_iff (classify : String → Option String)
    (parseDate : String → Option ℤ) (today : ℤ) (l : List Record) :
    (check_experience classify parseDate today l).1 = true ↔
      ((MIN_YEARS_EXPERIENCE ≤ totalYearsOf parseDate today l ∨
        (experienceState classify parseDate today l).worked_at_tier_1 = true) ∧
       0 < totalYearsOf parseDate today l) := by
  have hd : (((experienceState classify parseDate today l).total_days : ℤ) : ℚ)
      / (365.25 : ℚ) = totalYearsOf parseDate today l := by
    rw [totalYearsOf, experienceState_total_days]
  simp only [check_experience, hd]
  split
  · simp_all
  · simp_all

/-! ### C1: the verdict is the AND of the three criteria -/

/-- C1: for every applicant the status written by the aggregator is
`"Shortlisted"` iff the Experience, Compensation and Location evaluators all
return true (the verdict is the logical AND of the three booleans, over all
evaluator outcomes and hence all 8 boolean combinations). -/
theorem claim1_verdict_iff_all_criteria (env : ApplicantEnv) :
    ((processApplicant env).1 = "Shortlisted" ↔
      ((check_experience env.classify env.parseDate env.today env.experiences).1 = true ∧
       (check_compensation env.conversion_rates env.salary_records).1 = true ∧
       (check_location env.geocode env.classify env.personal_records).passed = true)) ∧
    (processApplicant env).2.2.head?
      = some (AirtableOp.update APPLICANTS_TABLE env.record.id "Shortlist Status"
          (processApplicant env).1) := by
  refine ⟨?_, rfl⟩
  simp only [processApplicant]
  cases he : (check_experience env.classify env.parseDate env.today env.experiences).1 <;>
    cases hc : (check_compensation env.conversion_rates env.salary_records).1 <;>
      cases hl : (check_location env.geocode env.classify env.personal_records).passed <;>
        simp [he, hc, hl]

/-- C1 witness: the verdict/criteria equivalence instantiated at the sample
environment. -/
theorem claim1_verdict_iff_all_criteria_witness :
    ((processApplicant sampleEnv).1 = "Shortlisted" ↔
      ((check_experience sampleEnv.classify sampleEnv.parseDate sampleEnv.today
          sampleEnv.experiences).1 = true ∧
       (check_compensation sampleEnv.conversion_rates sampleEnv.salary_records).1 = true ∧
       (check_location sampleEnv.geocode sampleEnv.classify
          sampleEnv.personal_records).passed = true)) ∧
    (processApplicant sampleEnv).2.2.head?
      = some (AirtableOp.update APPLICANTS_TABLE sampleEnv.record.id "Shortlist Status"
          (processApplicant sampleEnv).1) :=
  claim1_verdict_iff_all_criteria sampleEnv

/-! ### C3: the tier-1 flag is recomputed per entry (last entry wins), but
the `"Yes"` classifications themselves are sticky -/

/-- C3 counterexample: two entries, the first classified `"Yes"` with zero
duration, the second classified `"No"` with positive duration.  The final
flag is `true`, although the most recently processed tier-1-classified
entry (the first) has no positive duration — the earlier `"Yes"` alone,
combined with the last entry's positive duration, makes the flag true,
contradicting the claim that the final value reflects only the last entry
visited. -/
theorem claim3_counterexample :
    classifiedYes
        (fun p => if p = experiencePrompt "google" then some "Yes" else some "No")
        ⟨"r2", [("Company", FieldVal.str "Smallco"), ("Start", FieldVal.str "2020-01-01"),
          ("End", FieldVal.str "2020-01-11")]⟩ = false ∧
    entryDays
        (fun s => if s = "2020-01-01" then some 0
          else if s = "2020-01-11" then some 10 else none) 0
        ⟨"r1", [("Company", FieldVal.str "Google"), ("Start", FieldVal.str "2020-01-01"),
          ("End", FieldVal.str "2020-01-01")]⟩ = 0 ∧
    (experienceState
        (fun p => if p = experiencePrompt "google" then some "Yes" else some "No")
        (fun s => if s = "2020-01-01" then some 0
          else if s = "2020-01-11" then some 10 else none) 0
        [⟨"r1", [("Company", FieldVal.str "Google"), ("Start", FieldVal.str "2020-01-01"),
          ("End", FieldVal.str "2020-01-01")]⟩,
         ⟨"r2", [("Company", FieldVal.str "Smallco"), ("Start", FieldVal.str "2020-01-01"),
          ("End", FieldVal.str "2020-01-11")]⟩]).worked_at_tier_1 = true := by
  refine ⟨by decide, by decide, by decide⟩

/-- C3 amended: `worked_at_tier_1` is reassigned on every entry with
resolvable dates to `temp_tier_1 and duration > 0`, where `temp_tier_1`
accumulates `"Yes"` classifications with OR across ALL entries (it is
sticky, not per-entry).  Hence the final flag is true iff the last entry
with resolvable dates has positive duration and some entry up to and
including it classified `"Yes"` (`workedSpec`): the positive-duration test
reflects only the last date-resolvable entry, but an earlier `"Yes"` does
contribute. -/
theorem claim3_amended_worked_flag (classify : String → Option String)
    (parseDate : String → Option ℤ) (today : ℤ) (l : List Record) :
    (experienceState classify parseDate today l).worked_at_tier_1
      = workedSpec classify parseDate today l :=
  experienceState_worked classify parseDate today l

/-- C3 amended, witness: the characterisation instantiated at the
counterexample's two-entry history. -/
theorem claim3_amended_worked_flag_witness :
    (experienceState
        (fun p => if p = experiencePrompt "google" then some "Yes" else some "No")
        (fun s => if s = "2020-01-01" then some 0
          else if s = "2020-01-11" then some 10 else none) 0
        [⟨"r1", [("Company", FieldVal.str "Google"), ("Start", FieldVal.str "2020-01-01"),
          ("End", FieldVal.str "2020-01-01")]⟩,
         ⟨"r2", [("Company", FieldVal.str "Smallco"), ("Start", FieldVal.str "2020-01-01"),
          ("End", FieldVal.str "2020-01-11")]⟩]).worked_at_tier_1
      = workedSpec
          (fun p => if p = experiencePrompt "google" then some "Yes" else some "No")
          (fun s => if s = "2020-01-01" then some 0
            else if s = "2020-01-11" then some 10 else none) 0
          [⟨"r1", [("Company", FieldVal.str "Google"), ("Start", FieldVal.str "2020-01-01"),
            ("End", FieldVal.str "2020-01-01")]⟩,
           ⟨"r2", [("Company", FieldVal.str "Smallco"), ("Start", FieldVal.str "2020-01-01"),
            ("End", FieldVal.str "2020-01-11")]⟩] :=
  claim3_amended_worked_flag
    (fun p => if p = experiencePrompt "google" then some "Yes" else some "No")
    (fun s => if s = "2020-01-01" then some 0
      else if s = "2020-01-11" then some 10 else none) 0
    [⟨"r1", [("Company", FieldVal.str "Google"), ("Start", FieldVal.str "2020-01-01"),
      ("End", FieldVal.str "2020-01-01")]⟩,
     ⟨"r2", [("Company", FieldVal.str "Smallco"), ("Start", FieldVal.str "2020-01-01"),
      ("End", FieldVal.str "2020-01-11")]⟩]

/-! ### C2: experience accumulation and pass condition -/

/-- C2: total experience is the sum of per-entry elapsed days over ALL
entries (regardless of tier-1 status — `totalYearsOf` does not depend on the
classifier) divided by 365.25, and the evaluator passes exactly when
`(total_years >= MIN_YEARS_EXPERIENCE or worked_at_tier_1) and total_years > 0`;
in particular any applicant with `total_years` at or above the minimum and
positive total duration passes, regardless of tier-1 status. -/
theorem claim2_experience_accumulation (classify : String → Option String)
    (parseDate : String → Option ℤ) (today : ℤ) (l : List Record) :
    ((check_experience classify parseDate today l).1 = true ↔
      ((MIN_YEARS_EXPERIENCE ≤ totalYearsOf parseDate today l ∨
        (experienceState classify parseDate today l).worked_at_tier_1 = true) ∧
       0 < totalYearsOf parseDate today l)) ∧
    (MIN_YEARS_EXPERIENCE ≤ totalYearsOf parseDate today l →
     0 < totalYearsOf parseDate today l →
     (check_experience classify parseDate today l).1 = true) :=
  ⟨check_experience_fst_iff classify parseDate today l,
   fun h1 h2 => (check_experience_fst_iff classify parseDate today l).mpr
     ⟨Or.inl h1, h2⟩⟩

/-- C2 witness: a single five-year entry at a non-tier-1 company passes. -/
theorem claim2_experience_accumulation_witness :
    (check_experience (fun _ => some "No") sampleParseDate 0 [sampleWork]).1 = true := by
  have hm : ([sampleWork].map (entryDays sampleParseDate 0)) = [1827] := by decide
  have hy : totalYearsOf sampleParseDate 0 [sampleWork] = (1827 : ℚ) / (365.25 : ℚ) := by
    rw [totalYearsOf, hm]
    norm_num
  exact (claim2_experience_accumulation (fun _ => some "No") sampleParseDate 0 [sampleWork]).2
    (by rw [hy]; norm_num [MIN_YEARS_EXPERIENCE]) (by rw [hy]; norm_num)

/-! ### C4: exhausted classification retries are silently treated as "No" -/

/-- Only whether the classifier answers exactly `"Yes"` influences a loop
step of `check_experience`. -/
theorem expStep_classify_congr (c₁ c₂ : String → Option String)
    (parseDate : String → Option ℤ) (today : ℤ)
    (h : ∀ p, (c₁ p == some "Yes") = (c₂ p == some "Yes"))
    (st : ExpState) (r : Record) :
    expStep c₁ parseDate today st r = expStep c₂ parseDate today st r := by
  simp only [expStep, h]

/-- Only whether the classifier answers exactly `"Yes"` influences
`check_experience`. -/
theorem check_experience_classify_congr (c₁ c₂ : String → Option String)
    (parseDate : String → Option ℤ) (today : ℤ)
    (h : ∀ p, (c₁ p == some "Yes") = (c₂ p == some "Yes")) (l : List Record) :
    check_experience c₁ parseDate today l = check_experience c₂ parseDate today l := by
  have hs : experienceState c₁ parseDate today l = experienceState c₂ parseDate today l := by
    rw [experienceState, experienceState]
    exact List.foldl_ext _ _ _ (fun st r _ => expStep_classify_congr c₁ c₂ parseDate today h st r)
  rw [check_experience, check_experience, hs]

/-- Only whether the classifier answers exactly `"Yes"` influences
`check_location`. -/
theorem check_location_classify_congr (geocode : String → GeoResult)
    (c₁ c₂ : String → Option String) (per : List Record)
    (h : ∀ p, (c₁ p == some "Yes") = (c₂ p == some "Yes")) :
    check_location geocode c₁ per = check_location geocode c₂ per := by
  simp only [check_location, h]

/-- Exhausting every retry yields `none` ("no result") from the retry
loop, whatever attempt number it starts at. -/
theorem generateAttempts_all_fail (attemptResult : ℕ → Option String)
    (h : ∀ i, attemptResult i = none) :
    ∀ n attempt, generateAttempts attemptResult attempt n = none := by
  intro n
  induction n with
  | zero => intro a; rfl
  | succ m ih =>
    intro a
    rw [generateAttempts, h a]
    exact ih (a + 1)

/-- C4 counterexample: with a classifier that fails every call (exhausted
retries surface as `none`), the evaluators do NOT abort the applicant:
`check_location` returns the ordinary non-match result (after its one
classification call) and `check_experience` completes normally — here even
passing on years alone.  The missing answer is silently mapped to a
criterion non-match, refuting the claimed evaluator-level failure. -/
theorem claim4_counterexample :
    generate_content (fun _ => none) 3 = none ∧
    check_location (fun _ => GeoResult.notFound) (fun _ => none)
        [⟨"p1", [("Location", FieldVal.str "Pune")]⟩]
      = { passed := false, reason := "Location: Pune (Not in allowed list)",
          llm_calls := 1 } ∧
    (check_experience (fun _ => none) sampleParseDate 0 [sampleWork]).1 = true := by
  refine ⟨rfl, by decide, ?_⟩
  have hm : ([sampleWork].map (entryDays sampleParseDate 0)) = [1827] := by decide
  have hy : totalYearsOf sampleParseDate 0 [sampleWork] = (1827 : ℚ) / (365.25 : ℚ) := by
    rw [totalYearsOf, hm]
    norm_num
  exact (check_experience_fst_iff (fun _ => none) sampleParseDate 0 [sampleWork]).mpr
    ⟨Or.inl (by rw [hy]; norm_num [MIN_YEARS_EXPERIENCE]), by rw [hy]; norm_num⟩

/-- C4 amended: when every classification attempt fails, `generate_content`
returns `none`, and both evaluators treat the missing answer exactly like an
explicit `"No"` answer: evaluation continues with the entry counted as
non-tier-1 (experience) or the location counted as a non-match (location);
no evaluator-level abort occurs. -/
theorem claim4_amended_silent_no (attemptResult : ℕ → Option String)
    (max_retries : ℕ) (classify : String → Option String)
    (geocode : String → GeoResult) (parseDate : String → Option ℤ) (today : ℤ)
    (exps per : List Record)
    (hattempts : ∀ i, attemptResult i = none)
    (hclassify : ∀ p, classify p = none) :
    generate_content attemptResult max_retries = none ∧
    check_experience classify parseDate today exps
      = check_experience (fun _ => some "No") parseDate today exps ∧
    check_location geocode classify per
      = check_location geocode (fun _ => some "No") per :=
  ⟨generateAttempts_all_fail attemptResult hattempts max_retries 0,
   check_experience_classify_congr classify (fun _ => some "No") parseDate today
     (fun p => by rw [hclassify p]; rfl) exps,
   check_location_classify_congr geocode classify (fun _ => some "No") per
     (fun p => by rw [hclassify p]; rfl)⟩

/-- C4 amended, witness: the all-failing classifier at concrete inputs. -/
theorem claim4_amended_silent_no_witness :
    generate_content (fun _ => none) 3 = none ∧
    check_experience (fun _ => none) sampleParseDate 0 [sampleWork]
      = check_experience (fun _ => some "No") sampleParseDate 0 [sampleWork] ∧
    check_location (fun _ => GeoResult.notFound) (fun _ => none)
        [⟨"p1", [("Location", FieldVal.str "Pune")]⟩]
      = check_location (fun _ => GeoResult.notFound) (fun _ => some "No")
        [⟨"p1", [("Location", FieldVal.str "Pune")]⟩] :=
  claim4_amended_silent_no (fun _ => none) 3 (fun _ => none)
    (fun _ => GeoResult.notFound) sampleParseDate 0 [sampleWork]
    [⟨"p1", [("Location", FieldVal.str "Pune")]⟩]
    (fun _ => rfl) (fun _ => rfl)

/-! ### C8: the location reason string -/

/-- C8: at a concrete applicant whose `Location` is `"Berlin"` and geocodes
to allow-listed `"Germany"`, the accepted-branch reason is
`"Location: None (Allowed)"`: the source reads the misspelled key
`'location'` instead of `'Location'`, so the reason does NOT echo the
original location text. -/
theorem claim8_reason_key_bug :
    (check_location (fun _ => GeoResult.found "Berlin, 10117, Germany")
        (fun _ => none)
        [⟨"p1", [("Location", FieldVal.str "Berlin")]⟩]).reason
      = "Location: None (Allowed)" := by decide

/-! ### C5: compensation conversion and pass condition -/

/-- C5: for every existing salary-preference record the evaluator converts
the preferred rate by dividing by the snapshot rate of the record's
currency code, and passes iff the converted rate is at most `MAX_RATE_USD`
and the availability is at least `MIN_AVAILABILITY_HRS`; an unrecognized
currency code behaves exactly as if its rate were `1` (replacing the
missing snapshot entry by `1` leaves the evaluator's entire result
unchanged — fail-open, never a rejection caused by the missing code). -/
theorem claim5_compensation_conversion (conversion_rates : String → Option ℚ)
    (salary_records : List Record)
    (hne : headFields salary_records ≠ []) :
    ((check_compensation conversion_rates salary_records).1 = true ↔
      (salaryRate salary_records /
          ((conversion_rates (salaryCurrency salary_records)).getD 1) ≤ MAX_RATE_USD ∧
       MIN_AVAILABILITY_HRS ≤ salaryAvailability salary_records)) ∧
    (conversion_rates (salaryCurrency salary_records) = none →
      check_compensation conversion_rates salary_records =
        check_compensation
          (fun c => if c = salaryCurrency salary_records then some 1
            else conversion_rates c)
          salary_records) := by
  have hempty : (headFields salary_records).isEmpty = false := by
    cases h : headFields salary_records with
    | nil => exact absurd h hne
    | cons x xs => rfl
  constructor
  · simp only [check_compensation, hempty, Bool.false_eq_true, if_false]
    split
    · rename_i hcond
      simp only [Bool.and_eq_true, decide_eq_true_eq] at hcond
      simpa using hcond
    · rename_i hcond
      simp only [Bool.and_eq_true, decide_eq_true_eq, not_and] at hcond
      simpa using hcond
  · intro hnone
    simp [check_compensation, hnone]

/-- C5 witness: a 50 EUR/hr, 30 hrs/wk record with the currency missing
from the snapshot passes. -/
theorem claim5_compensation_conversion_witness :
    (check_compensation (fun _ => none)
      [⟨"s1", [("Preferred Rate", FieldVal.num 50), ("Currency", FieldVal.str "EUR"),
        ("Availability (hrs/wk)", FieldVal.num 30)]⟩]).1 = true := by
  have h := claim5_compensation_conversion (fun _ => none)
    [⟨"s1", [("Preferred Rate", FieldVal.num 50), ("Currency", FieldVal.str "EUR"),
      ("Availability (hrs/wk)", FieldVal.num 30)]⟩] (by decide)
  refine h.1.mpr ⟨?_, ?_⟩
  · have hr : salaryRate [⟨"s1", [("Preferred Rate", FieldVal.num 50),
        ("Currency", FieldVal.str "EUR"),
        ("Availability (hrs/wk)", FieldVal.num 30)]⟩] = 50 := by decide
    have hc : salaryCurrency [⟨"s1", [("Preferred Rate", FieldVal.num 50),
        ("Currency", FieldVal.str "EUR"),
        ("Availability (hrs/wk)", FieldVal.num 30)]⟩] = "EUR" := by decide
    rw [hr, hc]
    norm_num [Option.getD_none, MAX_RATE_USD]
  · have ha : salaryAvailability [⟨"s1", [("Preferred Rate", FieldVal.num 50),
        ("Currency", FieldVal.str "EUR"),
        ("Availability (hrs/wk)", FieldVal.num 30)]⟩] = 30 := by decide
    rw [ha]
    norm_num [MIN_AVAILABILITY_HRS]

/-! ### C6: the two location paths -/

/-- C6: a location that geocodes to an allow-listed country passes with no
Classification Port invocation; a location whose geocoding yields no
resolvable address invokes the Classification Port exactly once and passes
iff the response is exactly `"Yes"`. -/
theorem claim6_location_paths (geocode : String → GeoResult)
    (classify : String → Option String) (personal_records : List Record) :
    (∀ address, geocode (locationOf personal_records) = GeoResult.found address →
      pyStrip (pyLast (pySplit address ',')) ∈ ALLOWED_LOCATIONS →
      (check_location geocode classify personal_records).passed = true ∧
      (check_location geocode classify personal_records).llm_calls = 0) ∧
    (geocode (locationOf personal_records) = GeoResult.notFound →
      (check_location geocode classify personal_records).llm_calls = 1 ∧
      ((check_location geocode classify personal_records).passed = true ↔
        classify (locationPrompt (locationOf personal_records)) = some "Yes")) := by
  constructor
  · intro address hgeo hmem
    simp only [check_location, hgeo]
    rw [if_pos hmem]
    exact ⟨rfl, rfl⟩
  · intro hgeo
    simp only [check_location, hgeo]
    constructor
    · split <;> rfl
    · split <;> rename_i hYes
      · simp only [beq_iff_eq] at hYes
        simpa using hYes
      · simp only [beq_iff_eq] at hYes
        simpa using hYes

/-- C6 witness: `"Berlin"` geocoding to `"..., Germany"` passes with zero
classifier calls. -/
theorem claim6_location_paths_witness :
    (check_location (fun _ => GeoResult.found "Berlin, 10117, Germany")
      (fun _ => none) [⟨"p1", [("Location", FieldVal.str "Berlin")]⟩]).passed = true ∧
    (check_location (fun _ => GeoResult.found "Berlin, 10117, Germany")
      (fun _ => none) [⟨"p1", [("Location", FieldVal.str "Berlin")]⟩]).llm_calls = 0 :=
  (claim6_location_paths (fun _ => GeoResult.found "Berlin, 10117, Germany")
    (fun _ => none) [⟨"p1", [("Location", FieldVal.str "Berlin")]⟩]).1
    "Berlin, 10117, Germany" rfl (by decide)

/-! ### C7: missing salary record -/

/-- C7: with no salary-preference record the Compensation Evaluator returns
`(False, "No salary information available.")`, and the aggregator's verdict
for such an applicant is Not Shortlisted. -/
theorem claim7_no_salary_not_shortlisted (conversion_rates : String → Option ℚ)
    (env : ApplicantEnv) (h : env.salary_records = []) :
    check_compensation conversion_rates [] = (false, "No salary information available.") ∧
    (processApplicant env).1 = "Not Shortlisted" := by
  refine ⟨rfl, ?_⟩
  simp only [processApplicant, h]
  have hc : (check_compensation env.conversion_rates []).1 = false := rfl
  simp [hc]

/-- C7 witness: the empty-environment applicant is not shortlisted. -/
theorem claim7_no_salary_not_shortlisted_witness :
    (processApplicant sampleEnv).1 = "Not Shortlisted" :=
  (claim7_no_salary_not_shortlisted (fun _ => none) sampleEnv rfl).2

/-! ### C9: the lead-record write happens only on acceptance, never creates -/

/-- C9: `create_shortlisted_lead` is a no-op when no matching lead record
exists and never issues a create; and for a Not Shortlisted applicant the
aggregator's only mutation is the status update — no lead-record operation
occurs at all. -/
theorem claim9_lead_write_frame (env : ApplicantEnv) (lead_records : List Record)
    (reason : String) :
    create_shortlisted_lead [] reason = [] ∧
    (∀ op ∈ create_shortlisted_lead lead_records reason, op.isCreate = false) ∧
    ((processApplicant env).1 = "Not Shortlisted" →
      (processApplicant env).2.2
        = [AirtableOp.update APPLICANTS_TABLE env.record.id "Shortlist Status"
            "Not Shortlisted"]) := by
  refine ⟨rfl, ?_, ?_⟩
  · cases lead_records with
    | nil =>
      intro op hop
      simp [create_shortlisted_lead] at hop
    | cons r tl =>
      intro op hop
      simp only [create_shortlisted_lead, List.mem_singleton] at hop
      subst hop
      rfl
  · intro hstatus
    simp only [processApplicant] at hstatus ⊢
    cases hcond : ((check_experience env.classify env.parseDate env.today env.experiences).1 &&
        (check_compensation env.conversion_rates env.salary_records).1 &&
        (check_location env.geocode env.classify env.personal_records).passed) with
    | true =>
      rw [hcond] at hstatus
      simp at hstatus
    | false =>
      simp only [Bool.false_eq_true, if_false]
      rw [if_neg (by decide)]

/-- C9 witness: the empty-environment applicant gets exactly one mutation,
its status update. -/
theorem claim9_lead_write_frame_witness :
    (processApplicant sampleEnv).2.2
      = [AirtableOp.update APPLICANTS_TABLE "recA" "Shortlist Status"
          "Not Shortlisted"] := by
  have hs : (processApplicant sampleEnv).1 = "Not Shortlisted" := by
    norm_num [processApplicant, sampleEnv, check_experience, experienceState,
      check_compensation, headFields]
  exact (claim9_lead_write_frame sampleEnv [] "").2.2 hs

/-! ### C10: a missing Preferred Rate field is fail-open -/

/-- C10: a salary record that lacks `Preferred Rate` gets rate `0` (and a
missing `Currency` defaults to `"USD"`), so with any positive conversion
rate the rate condition holds and the evaluator passes whenever the
availability alone meets the minimum — the missing rate is never by itself
a rejection. -/
theorem claim10_missing_rate_fail_open (conversion_rates : String → Option ℚ)
    (r : Record) (rest : List Record) (a : ℚ)
    (hrate : r.fields.get? "Preferred Rate" = none)
    (hcur : r.fields.get? "Currency" = none)
    (havail : r.fields.get? "Availability (hrs/wk)" = some (FieldVal.num a))
    (hconv : 0 < (conversion_rates "USD").getD 1)
    (ha : MIN_AVAILABILITY_HRS ≤ a) :
    salaryRate (r :: rest) = 0 ∧
    salaryCurrency (r :: rest) = "USD" ∧
    (check_compensation conversion_rates (r :: rest)).1 = true := by
  have hhead : headFields (r :: rest) = r.fields := rfl
  have h0 : salaryRate (r :: rest) = 0 := by
    rw [salaryRate, hhead, Fields.getNumD, hrate]
  have hc : salaryCurrency (r :: rest) = "USD" := by
    rw [salaryCurrency, hhead, Fields.getStrD, Fields.getStr?, hcur]
    rfl
  have hav : salaryAvailability (r :: rest) = a := by
    rw [salaryAvailability, hhead, Fields.getNumD, havail]
  have hne : (r.fields).isEmpty = false := by
    cases hf : r.fields with
    | nil =>
      rw [hf] at havail
      exact absurd havail (by simp [Fields.get?])
    | cons x xs => rfl
  refine ⟨h0, hc, ?_⟩
  simp only [check_compensation, hhead, hne, Bool.false_eq_true, if_false]
  rw [h0, hc, hav]
  have hcond : (decide (0 / ((conversion_rates "USD").getD 1) ≤ MAX_RATE_USD) &&
      decide (MIN_AVAILABILITY_HRS ≤ a)) = true := by
    simp only [Bool.and_eq_true, decide_eq_true_eq]
    refine ⟨?_, ha⟩
    rw [zero_div, MAX_RATE_USD]
    norm_num
  rw [if_pos hcond]

/-- C10 witness: a record with only `Availability (hrs/wk) = 25` passes
against a snapshot that maps every code to rate `2`. -/
theorem claim10_missing_rate_fail_open_witness :
    (check_compensation (fun _ => some 2)
      [⟨"s2", [("Availability (hrs/wk)", FieldVal.num 25)]⟩]).1 = true :=
  (claim10_missing_rate_fail_open (fun _ => some 2)
    ⟨"s2", [("Availability (hrs/wk)", FieldVal.num 25)]⟩ [] 25
    (by decide) (by decide) (by decide)
    (by norm_num [Option.getD_some])
    (by norm_num [MIN_AVAILABILITY_HRS])).2.2

end Shortlist
